import Mathlib

/-!
Shallow embedding of `src/CR2_solutions.py` (the `plot_columns` function) and
proofs of the specification claims about it.

The Python function drives matplotlib; we model its observable behaviour as a
trace of rendering events (figure/axes creation, per-column line or scatter
traces, axis labels and titles, legend, printed diagnostics, showing the
figure) together with an outcome: normal return or an uncaught Python
exception (modelled as `Outcome.crashed` with the exception name).

Numeric sample values never influence the control flow, so array
entries are modelled as `Int` (an inert payload carried into the plot
events).  `np.random.random(3)`, the per-column colour draw, is modelled as a
caller-supplied stream `rng : Nat → Nat` consulted once per loop iteration;
the colour value is never inspected by the function.
-/

/-- A 2-D numpy array: `rows × cols`, with an entry function.  Only the shape
and the extracted columns are observable in the plot trace. -/
structure Arr2D where
  rows : Nat
  cols : Nat
  entry : Nat → Nat → Int

/-- Column extraction, the slice `a[:, i]`: column `i` as a list of `rows` values. -/
def Arr2D.colAt (a : Arr2D) (i : Nat) : List Int :=
  (List.range a.rows).map (fun r => a.entry r i)

/-- Observable rendering events, in program order. -/
inductive Ev where
  /-- The call `plt.subplots(ax_num, 1, figsize=(10, 5*ax_num))`: creates `nAxes` axes. -/
  | figureCreated (nAxes : Nat) (figWidth figHeight : Nat)
  /-- The call `current_ax.set` with a title and the y-axis label "y". -/
  | setTitleYlabel (axIdx : Nat) (title : String)
  /-- The call `current_ax.plot` on columns `x[:, i]` and `y[:, i]` with a label and colour. -/
  | linePlot (axIdx colIdx : Nat) (xs ys : List Int) (label : String) (color : Nat)
  /-- The call `current_ax.scatter` on columns `x[:, i]` and `y[:, i]` with a label, colour and marker `markers[i]`. -/
  | scatterPlot (axIdx colIdx : Nat) (xs ys : List Int) (label : String) (color : Nat)
      (marker : String)
  /-- A `print` call. -/
  | printMsg (msg : String)
  /-- The call `current_ax.set` with the x-axis label "x". -/
  | setXlabel (axIdx : Nat)
  /-- The call `current_ax.legend()`. -/
  | legend (axIdx : Nat)
  /-- The call `plt.subplots_adjust` with the fixed margins of line 110. -/
  | subplotsAdjust
  /-- The call `plt.show()`. -/
  | showFig
  deriving DecidableEq

/-- How a call ends: a normal `return`, or an uncaught Python exception. -/
inductive Outcome where
  | returned
  | crashed (err : String)
  deriving DecidableEq

/-- The observable result of one call: the event trace and the outcome. -/
structure RunResult where
  trace : List Ev
  outcome : Outcome
  deriving DecidableEq

/-- How the `for i in range(plot_num)` loop ends: ran to completion (carrying
the final value of the `current_ax` variable, `none` if never assigned),
returned early on a bad style tag, or raised. -/
inductive LoopExit where
  | finished (currentAx : Option Nat)
  | returnedEarly
  | crashedLoop (err : String)
  deriving DecidableEq

/-- The marker palette of line 56, a list of ten one-character marker names. -/
def markers : List String := [".", "x", "s", "+", "d", "v", "^", ">", "<", "p"]

/-- The diagnostic printed for an unrecognized `fig_type` (a fixed string). -/
def figTypeMsg : String :=
  "Please specify a figure type as either \"single\" or \"subplots\"."

/-- The f-string of the source producing "Plot " followed by the decimal of `i`, used as per-column label and per-subplot title. -/
def plotLabel (i : Nat) : String := "Plot " ++ Nat.repr i

/-- The diagnostic printed for an unrecognized style tag at column `i` (line 90
of the source), an f-string naming the column index and the offending tag. -/
def plotTypeMsg (i : Nat) (t : String) : String :=
  plotLabel i ++
    (" has the type \"" ++ (t ++ "\"; make sure it is either \"line\" or \"scatter\"."))

/-- The axis the loop body selects at iteration `i`: the sole axis (index 0)
when `ax_num == 1`, otherwise `ax[i]`. -/
def axOf (axNum i : Nat) : Nat := if axNum = 1 then 0 else i

/-- The per-subplot labelling done at the top of iteration `i`: nothing when
`ax_num == 1`, otherwise a `current_ax.set` call with title `plotLabel i` and
the y-axis label "y". -/
def titleEvsOf (axNum i : Nat) : List Ev :=
  if axNum = 1 then [] else [.setTitleYlabel i (plotLabel i)]

/-- The body of `for i in range(plot_num)`, over the list of remaining loop
indices, threading the `current_ax` variable (an axis index, `none` while
unassigned).  Mirrors lines 59-91 of the source: select the axis (labelling
it in multi-axis mode), draw a colour, then dispatch on `plot_type[i]`;
`plot_type[i]` and `markers[i]` out of range raise `IndexError`, an
unrecognized tag prints and returns early. -/
def plotLoop (axNum : Nat) (x y : Arr2D) (plot_type : List String) (rng : Nat → Nat) :
    List Nat → Option Nat → List Ev × LoopExit
  | [], cur => ([], .finished cur)
  | i :: rest, _ =>
    let currentAx := axOf axNum i
    let color := rng i
    match plot_type.get? i with
    | none => (titleEvsOf axNum i, .crashedLoop "IndexError")
    | some t =>
      if t = "line" then
        let r := plotLoop axNum x y plot_type rng rest (some currentAx)
        (titleEvsOf axNum i ++
          [.linePlot currentAx i (x.colAt i) (y.colAt i) (plotLabel i) color] ++ r.1, r.2)
      else if t = "scatter" then
        match markers.get? i with
        | none => (titleEvsOf axNum i, .crashedLoop "IndexError")
        | some m =>
          let r := plotLoop axNum x y plot_type rng rest (some currentAx)
          (titleEvsOf axNum i ++
            [.scatterPlot currentAx i (x.colAt i) (y.colAt i) (plotLabel i) color m] ++ r.1,
            r.2)
      else
        (titleEvsOf axNum i ++ [.printMsg (plotTypeMsg i t)], .returnedEarly)

/-- Events after a successfully finished loop (lines 98-113): x-axis label on
the last-used axis; in single-axis mode an overall title (with y-label) and,
for more than one column, a legend; otherwise a margin adjustment; then show. -/
def tailEvs (axNum plotNum lastAx : Nat) : List Ev :=
  [.setXlabel lastAx] ++
    (if axNum = 1 then
      [.setTitleYlabel lastAx "x vs. y, column-wise"] ++
        (if plotNum > 1 then [.legend lastAx] else [])
    else
      [.subplotsAdjust]) ++
    [.showFig]

/-- The part of `plot_columns` after `fig_type` validation, for a given
`ax_num`: create the figure and axes, run the loop, then (if the loop
finished) the post-loop labelling; reading `current_ax` when the loop never
ran raises `UnboundLocalError`. -/
def plotBody (axNum plotNum : Nat) (x y : Arr2D) (plot_type : List String)
    (rng : Nat → Nat) : RunResult :=
  let fig := Ev.figureCreated axNum 10 (5 * axNum)
  match plotLoop axNum x y plot_type rng (List.range plotNum) none with
  | (evs, .returnedEarly) => ⟨fig :: evs, .returned⟩
  | (evs, .crashedLoop e) => ⟨fig :: evs, .crashed e⟩
  | (evs, .finished none) => ⟨fig :: evs, .crashed "UnboundLocalError"⟩
  | (evs, .finished (some lastAx)) =>
      ⟨fig :: evs ++ tailEvs axNum plotNum lastAx, .returned⟩

/-- The embedded `plot_columns(fig_type, x, y, plot_type)`.  `plot_num` is
`x.shape[1]`; `fig_type` selects `ax_num` (1 for "single", `plot_num` for
"subplots"), any other value prints a fixed diagnostic and returns. -/
def plot_columns (fig_type : String) (x y : Arr2D) (plot_type : List String)
    (rng : Nat → Nat) : RunResult :=
  let plot_num := x.cols
  if fig_type = "single" then
    plotBody 1 plot_num x y plot_type rng
  else if fig_type = "subplots" then
    plotBody plot_num plot_num x y plot_type rng
  else
    ⟨[.printMsg figTypeMsg], .returned⟩

/-! Observation helpers over traces. -/

/-- Total number of axes (drawing surfaces) created along a trace. -/
def axesCreated : List Ev → Nat
  | [] => 0
  | .figureCreated n _ _ :: rest => n + axesCreated rest
  | _ :: rest => axesCreated rest

/-- The column indices for which a line or scatter trace was drawn, in order. -/
def drawnCols : List Ev → List Nat
  | [] => []
  | .linePlot _ c _ _ _ _ :: rest => c :: drawnCols rest
  | .scatterPlot _ c _ _ _ _ _ :: rest => c :: drawnCols rest
  | _ :: rest => drawnCols rest

/-- The messages printed along a trace, in order. -/
def diagnostics : List Ev → List String
  | [] => []
  | .printMsg m :: rest => m :: diagnostics rest
  | _ :: rest => diagnostics rest

/-- A call is completed when it reached `plt.show()`. -/
def Completed (r : RunResult) : Prop := Ev.showFig ∈ r.trace

/-- Events that the loop body can emit (with the per-subplot titles possible
only in multi-axis mode). -/
def loopEvOK (axNum : Nat) : Ev → Bool
  | .setTitleYlabel _ _ => !(axNum == 1)
  | .linePlot _ _ _ _ _ _ => true
  | .scatterPlot _ _ _ _ _ _ _ => true
  | .printMsg _ => true
  | _ => false

/-- Test that `pat` is a prefix of the second list (over character lists). -/
def charsPre : List Char → List Char → Bool
  | [], _ => true
  | _ :: _, [] => false
  | p :: ps, c :: cs => p = c && charsPre ps cs

/-- Test that `pat` occurs as a contiguous run inside the second list (over character lists). -/
def charsSub (pat : List Char) : List Char → Bool
  | [] => charsPre pat []
  | c :: cs => charsPre pat (c :: cs) || charsSub pat cs

/-- The string `msg` names (contains as a substring) the string `val`. -/
def Mentions (msg val : String) : Prop := charsSub val.data msg.data = true

/-- A style tag the loop body accepts at column `i` without raising:
"line", or "scatter" with a marker available (`i < 10`). -/
def goodTag (plot_type : List String) (i : Nat) : Prop :=
  plot_type.get? i = some "line" ∨ (plot_type.get? i = some "scatter" ∧ i < 10)

/-- The marker the palette assigns to column `i` (defaulting outside range). -/
def markerAt (i : Nat) : String := (markers.get? i).getD "?"

/-- The events one accepting loop iteration emits for column `i`. -/
def goodEv (axNum : Nat) (x y : Arr2D) (plot_type : List String) (rng : Nat → Nat)
    (i : Nat) : List Ev :=
  if plot_type.get? i = some "line" then
    [.linePlot (axOf axNum i) i (x.colAt i) (y.colAt i) (plotLabel i) (rng i)]
  else
    [.scatterPlot (axOf axNum i) i (x.colAt i) (y.colAt i) (plotLabel i) (rng i)
      (markerAt i)]

/-- Events emitted by a run of the loop over `idxs` when every index is
accepted. -/
def loopEvsG (axNum : Nat) (x y : Arr2D) (plot_type : List String) (rng : Nat → Nat) :
    List Nat → List Ev
  | [] => []
  | i :: rest =>
    titleEvsOf axNum i ++ goodEv axNum x y plot_type rng i ++
      loopEvsG axNum x y plot_type rng rest

/-- The value of `current_ax` after the loop ran over `idxs`, starting from
`cur`. -/
def lastAxAfter (axNum : Nat) (cur : Option Nat) (idxs : List Nat) : Option Nat :=
  match idxs.getLast? with
  | none => cur
  | some j => some (axOf axNum j)

/-- A concrete all-zero array of shape `(r, c)`, for concrete test calls. -/
def testArr (r c : Nat) : Arr2D := ⟨r, c, fun _ _ => 0⟩

/-- A concrete colour stream for concrete test calls. -/
def rng0 : Nat → Nat := fun _ => 0

instance (r : RunResult) : Decidable (Completed r) := by
  unfold Completed
  infer_instance

instance (msg val : String) : Decidable (Mentions msg val) := by
  unfold Mentions
  infer_instance

/-! Basic lemmas about the loop. -/

lemma markers_get_lt (i : Nat) (hi : i < 10) : markers.get? i = some (markerAt i) := by
  interval_cases i <;> rfl

lemma plotLoop_cons_good (axNum : Nat) (x y : Arr2D) (pt : List String) (rng : Nat → Nat)
    (i : Nat) (rest : List Nat) (cur : Option Nat) (h : goodTag pt i) :
    plotLoop axNum x y pt rng (i :: rest) cur =
      (titleEvsOf axNum i ++ goodEv axNum x y pt rng i ++
        (plotLoop axNum x y pt rng rest (some (axOf axNum i))).1,
       (plotLoop axNum x y pt rng rest (some (axOf axNum i))).2) := by
  rcases h with hline | ⟨hscat, hlt⟩
  · have h' : pt[i]? = some "line" := by simpa using hline
    simp [plotLoop, h', goodEv]
  · have h' : pt[i]? = some "scatter" := by simpa using hscat
    have hm : markers[i]? = some (markerAt i) := by simpa using markers_get_lt i hlt
    simp [plotLoop, h', goodEv, hm]

lemma plotLoop_cons_bad (axNum : Nat) (x y : Arr2D) (pt : List String) (rng : Nat → Nat)
    (i : Nat) (rest : List Nat) (cur : Option Nat) (t : String)
    (ht : pt.get? i = some t) (h1 : t ≠ "line") (h2 : t ≠ "scatter") :
    plotLoop axNum x y pt rng (i :: rest) cur =
      (titleEvsOf axNum i ++ [.printMsg (plotTypeMsg i t)], .returnedEarly) := by
  have h' : pt[i]? = some t := by simpa using ht
  simp [plotLoop, h', h1, h2]

lemma lastAxAfter_cons (axNum : Nat) (cur : Option Nat) (i : Nat) (rest : List Nat) :
    lastAxAfter axNum cur (i :: rest) = lastAxAfter axNum (some (axOf axNum i)) rest := by
  cases rest with
  | nil => simp [lastAxAfter]
  | cons j rest =>
    cases h : (j :: rest).getLast? with
    | none => simp at h
    | some a => simp [lastAxAfter, List.getLast?_cons_cons, h]

lemma plotLoop_good (axNum : Nat) (x y : Arr2D) (pt : List String) (rng : Nat → Nat) :
    ∀ (idxs : List Nat), (∀ i ∈ idxs, goodTag pt i) → ∀ (cur : Option Nat),
    plotLoop axNum x y pt rng idxs cur =
      (loopEvsG axNum x y pt rng idxs, .finished (lastAxAfter axNum cur idxs)) := by
  intro idxs
  induction idxs with
  | nil => intro _ cur; simp [plotLoop, loopEvsG, lastAxAfter]
  | cons i rest ih =>
    intro h cur
    rw [plotLoop_cons_good axNum x y pt rng i rest cur (h i (by simp)),
      ih (fun j hj => h j (by simp [hj])) (some (axOf axNum i)),
      lastAxAfter_cons]
    simp [loopEvsG]

lemma plotLoop_firstBad (axNum : Nat) (x y : Arr2D) (pt : List String) (rng : Nat → Nat)
    (i : Nat) (t : String) (ht : pt.get? i = some t)
    (h1 : t ≠ "line") (h2 : t ≠ "scatter") :
    ∀ (l1 l2 : List Nat), (∀ j ∈ l1, goodTag pt j) → ∀ (cur : Option Nat),
    plotLoop axNum x y pt rng (l1 ++ i :: l2) cur =
      (loopEvsG axNum x y pt rng l1 ++
        (titleEvsOf axNum i ++ [.printMsg (plotTypeMsg i t)]), .returnedEarly) := by
  intro l1
  induction l1 with
  | nil =>
    intro l2 _ cur
    simpa [loopEvsG] using plotLoop_cons_bad axNum x y pt rng i l2 cur t ht h1 h2
  | cons j l1 ih =>
    intro l2 h cur
    rw [List.cons_append,
      plotLoop_cons_good axNum x y pt rng j (l1 ++ i :: l2) cur (h j (by simp)),
      ih l2 (fun k hk => h k (by simp [hk])) (some (axOf axNum j))]
    simp [loopEvsG]

/-! Shape of the events the loop can emit. -/

lemma loopEvOK_titleEvsOf (axNum i : Nat) (e : Ev) (he : e ∈ titleEvsOf axNum i) :
    loopEvOK axNum e = true := by
  by_cases h : axNum = 1
  · simp [titleEvsOf, h] at he
  · simp [titleEvsOf, h] at he
    simp [he, loopEvOK, h]

lemma loopEvOK_plotLoop (axNum : Nat) (x y : Arr2D) (pt : List String) (rng : Nat → Nat) :
    ∀ (idxs : List Nat) (cur : Option Nat) (e : Ev),
    e ∈ (plotLoop axNum x y pt rng idxs cur).1 → loopEvOK axNum e = true := by
  intro idxs
  induction idxs with
  | nil => intro cur e he; simp [plotLoop] at he
  | cons i rest ih =>
    intro cur e he
    rw [plotLoop] at he
    rcases hg : pt.get? i with _ | t
    · rw [hg] at he
      exact loopEvOK_titleEvsOf axNum i e he
    · rw [hg] at he
      dsimp only at he
      by_cases hl : t = "line"
      · rw [if_pos hl] at he
        simp only [List.append_assoc, List.mem_append, List.mem_singleton] at he
        rcases he with h1 | h1 | h1
        · exact loopEvOK_titleEvsOf axNum i e h1
        · simp [h1, loopEvOK]
        · exact ih _ e h1
      · rw [if_neg hl] at he
        by_cases hs : t = "scatter"
        · rw [if_pos hs] at he
          rcases hm : markers.get? i with _ | m
          · rw [hm] at he
            exact loopEvOK_titleEvsOf axNum i e he
          · rw [hm] at he
            simp only [List.append_assoc, List.mem_append, List.mem_singleton] at he
            rcases he with h1 | h1 | h1
            · exact loopEvOK_titleEvsOf axNum i e h1
            · simp [h1, loopEvOK]
            · exact ih _ e h1
        · rw [if_neg hs] at he
          simp only [List.mem_append, List.mem_singleton] at he
          rcases he with h1 | h1
          · exact loopEvOK_titleEvsOf axNum i e h1
          · simp [h1, loopEvOK]

lemma loopEvOK_loopEvsG (axNum : Nat) (x y : Arr2D) (pt : List String) (rng : Nat → Nat) :
    ∀ (idxs : List Nat) (e : Ev), e ∈ loopEvsG axNum x y pt rng idxs →
    loopEvOK axNum e = true := by
  intro idxs
  induction idxs with
  | nil => intro e he; simp [loopEvsG] at he
  | cons i rest ih =>
    intro e he
    simp only [loopEvsG, List.append_assoc, List.mem_append] at he
    rcases he with h1 | h1 | h1
    · exact loopEvOK_titleEvsOf axNum i e h1
    · by_cases hl : pt.get? i = some "line"
      · rw [goodEv, if_pos hl] at h1
        simp only [List.mem_singleton] at h1
        simp [h1, loopEvOK]
      · rw [goodEv, if_neg hl] at h1
        simp only [List.mem_singleton] at h1
        simp [h1, loopEvOK]
    · exact ih e h1

/-- If the loop ran to completion, every index it visited had an accepted
style tag. -/
lemma finished_good (axNum : Nat) (x y : Arr2D) (pt : List String) (rng : Nat → Nat) :
    ∀ (idxs : List Nat) (cur : Option Nat) (r : Option Nat),
    (plotLoop axNum x y pt rng idxs cur).2 = .finished r →
    ∀ i ∈ idxs, goodTag pt i := by
  intro idxs
  induction idxs with
  | nil => intro cur r _ i hi; simp at hi
  | cons i rest ih =>
    intro cur r hfin j hj
    rw [plotLoop] at hfin
    rcases hg : pt.get? i with _ | t
    · rw [hg] at hfin; simp at hfin
    · rw [hg] at hfin
      dsimp only at hfin
      by_cases hl : t = "line"
      · rw [if_pos hl] at hfin
        simp only [] at hfin
        rcases List.mem_cons.1 hj with hji | hjr
        · rw [hji]; left; rw [hg, hl]
        · exact ih _ r hfin j hjr
      · rw [if_neg hl] at hfin
        by_cases hs : t = "scatter"
        · rw [if_pos hs] at hfin
          rcases hm : markers.get? i with _ | m
          · rw [hm] at hfin; simp at hfin
          · rw [hm] at hfin
            simp only [] at hfin
            rcases List.mem_cons.1 hj with hji | hjr
            · rw [hji]
              right
              refine ⟨by rw [hg, hs], ?_⟩
              have hm' : markers[i]? = some m := by simpa using hm
              have : i < markers.length := by
                by_contra hge
                rw [List.getElem?_eq_none (by omega)] at hm'
                exact Option.noConfusion hm'
              simpa [markers] using this
            · exact ih _ r hfin j hjr
        · rw [if_neg hs] at hfin
          simp at hfin

/-! Distribution lemmas for the trace observations. -/

lemma axesCreated_append (a b : List Ev) :
    axesCreated (a ++ b) = axesCreated a + axesCreated b := by
  induction a with
  | nil => simp [axesCreated]
  | cons e rest ih => cases e <;> simp [axesCreated, ih, Nat.add_assoc]

lemma drawnCols_append (a b : List Ev) :
    drawnCols (a ++ b) = drawnCols a ++ drawnCols b := by
  induction a with
  | nil => simp [drawnCols]
  | cons e rest ih => cases e <;> simp [drawnCols, ih]

lemma diagnostics_append (a b : List Ev) :
    diagnostics (a ++ b) = diagnostics a ++ diagnostics b := by
  induction a with
  | nil => simp [diagnostics]
  | cons e rest ih => cases e <;> simp [diagnostics, ih]

lemma axesCreated_eq_zero (t : List Ev)
    (h : ∀ e ∈ t, ∀ n w hgt, e ≠ Ev.figureCreated n w hgt) : axesCreated t = 0 := by
  induction t with
  | nil => rfl
  | cons e rest ih =>
    have hrest : axesCreated rest = 0 := ih (fun a ha => h a (List.mem_cons_of_mem _ ha))
    cases e <;>
      first
      | exact absurd rfl (h _ (List.mem_cons_self _ _) _ _ _)
      | simpa [axesCreated] using hrest

lemma loopEvOK_not_fig (axNum : Nat) (e : Ev) (h : loopEvOK axNum e = true) :
    ∀ n w hgt, e ≠ Ev.figureCreated n w hgt := by
  cases e <;> simp [loopEvOK] at h ⊢

lemma axesCreated_tailEvs (axNum plotNum lastAx : Nat) :
    axesCreated (tailEvs axNum plotNum lastAx) = 0 := by
  unfold tailEvs
  split <;> [skip; simp [axesCreated]]
  split <;> simp [axesCreated]

lemma drawnCols_titleEvsOf (axNum i : Nat) : drawnCols (titleEvsOf axNum i) = [] := by
  unfold titleEvsOf; split <;> simp [drawnCols]

lemma drawnCols_goodEv (axNum : Nat) (x y : Arr2D) (pt : List String) (rng : Nat → Nat)
    (i : Nat) : drawnCols (goodEv axNum x y pt rng i) = [i] := by
  unfold goodEv; split <;> simp [drawnCols]

lemma drawnCols_loopEvsG (axNum : Nat) (x y : Arr2D) (pt : List String) (rng : Nat → Nat) :
    ∀ idxs : List Nat, drawnCols (loopEvsG axNum x y pt rng idxs) = idxs := by
  intro idxs
  induction idxs with
  | nil => rfl
  | cons i rest ih =>
    rw [loopEvsG, drawnCols_append, drawnCols_append, drawnCols_titleEvsOf,
      drawnCols_goodEv, ih]
    rfl

lemma drawnCols_tailEvs (axNum plotNum lastAx : Nat) :
    drawnCols (tailEvs axNum plotNum lastAx) = [] := by
  unfold tailEvs
  split <;> [skip; simp [drawnCols]]
  split <;> simp [drawnCols]

lemma diagnostics_titleEvsOf (axNum i : Nat) : diagnostics (titleEvsOf axNum i) = [] := by
  unfold titleEvsOf; split <;> simp [diagnostics]

lemma diagnostics_goodEv (axNum : Nat) (x y : Arr2D) (pt : List String) (rng : Nat → Nat)
    (i : Nat) : diagnostics (goodEv axNum x y pt rng i) = [] := by
  unfold goodEv; split <;> simp [diagnostics]

lemma diagnostics_loopEvsG (axNum : Nat) (x y : Arr2D) (pt : List String)
    (rng : Nat → Nat) :
    ∀ idxs : List Nat, diagnostics (loopEvsG axNum x y pt rng idxs) = [] := by
  intro idxs
  induction idxs with
  | nil => rfl
  | cons i rest ih =>
    rw [loopEvsG, diagnostics_append, diagnostics_append, diagnostics_titleEvsOf,
      diagnostics_goodEv, ih]
    rfl

lemma diagnostics_tailEvs (axNum plotNum lastAx : Nat) :
    diagnostics (tailEvs axNum plotNum lastAx) = [] := by
  unfold tailEvs
  split <;> [skip; simp [diagnostics]]
  split <;> simp [diagnostics]

/-! Membership facts about the tail events. -/

lemma showFig_tailEvs (axNum plotNum lastAx : Nat) :
    Ev.showFig ∈ tailEvs axNum plotNum lastAx := by
  unfold tailEvs
  split <;> [skip; simp]
  split <;> simp

lemma legend_tailEvs (axNum plotNum lastAx a : Nat) :
    Ev.legend a ∈ tailEvs axNum plotNum lastAx ↔ axNum = 1 ∧ plotNum > 1 ∧ a = lastAx := by
  unfold tailEvs
  by_cases h1 : axNum = 1
  · rw [if_pos h1]
    by_cases h2 : plotNum > 1
    · rw [if_pos h2]; simp [h1, h2, eq_comm]
    · rw [if_neg h2]; simp [h1, h2]
  · rw [if_neg h1]; simp [h1]

lemma setXlabel_tailEvs (axNum plotNum lastAx a : Nat) :
    Ev.setXlabel a ∈ tailEvs axNum plotNum lastAx ↔ a = lastAx := by
  unfold tailEvs
  by_cases h1 : axNum = 1
  · rw [if_pos h1]
    by_cases h2 : plotNum > 1
    · rw [if_pos h2]; simp [eq_comm]
    · rw [if_neg h2]; simp [eq_comm]
  · rw [if_neg h1]; simp [eq_comm]

lemma subplotsAdjust_tailEvs (axNum plotNum lastAx : Nat) :
    Ev.subplotsAdjust ∈ tailEvs axNum plotNum lastAx ↔ axNum ≠ 1 := by
  unfold tailEvs
  by_cases h1 : axNum = 1
  · rw [if_pos h1]
    by_cases h2 : plotNum > 1
    · rw [if_pos h2]; simp [h1]
    · rw [if_neg h2]; simp [h1]
  · rw [if_neg h1]; simp [h1]

lemma setTitle_tailEvs (axNum plotNum lastAx a : Nat) (s : String) :
    Ev.setTitleYlabel a s ∈ tailEvs axNum plotNum lastAx ↔
      axNum = 1 ∧ a = lastAx ∧ s = "x vs. y, column-wise" := by
  unfold tailEvs
  by_cases h1 : axNum = 1
  · rw [if_pos h1]
    by_cases h2 : plotNum > 1
    · rw [if_pos h2]; simp [h1]
    · rw [if_neg h2]; simp [h1]
  · rw [if_neg h1]; simp [h1]

/-! Analysis of `plotBody`. -/

lemma range_getLast? (n : Nat) (hn : 0 < n) : (List.range n).getLast? = some (n - 1) := by
  obtain ⟨m, rfl⟩ : ∃ m, n = m + 1 := ⟨n - 1, by omega⟩
  rw [List.range_succ, List.getLast?_concat]
  simp

lemma lastAxAfter_range (axNum n : Nat) (hn : 0 < n) :
    lastAxAfter axNum none (List.range n) = some (axOf axNum (n - 1)) := by
  rw [lastAxAfter, range_getLast? n hn]

lemma plotBody_good (axNum plotNum : Nat) (x y : Arr2D) (pt : List String)
    (rng : Nat → Nat) (hg : ∀ i ∈ List.range plotNum, goodTag pt i) (hn : 0 < plotNum) :
    plotBody axNum plotNum x y pt rng =
      ⟨Ev.figureCreated axNum 10 (5 * axNum) ::
        loopEvsG axNum x y pt rng (List.range plotNum) ++
          tailEvs axNum plotNum (axOf axNum (plotNum - 1)), .returned⟩ := by
  simp only [plotBody]
  rw [plotLoop_good axNum x y pt rng _ hg none, lastAxAfter_range axNum plotNum hn]

lemma plotBody_early (axNum plotNum : Nat) (x y : Arr2D) (pt : List String)
    (rng : Nat → Nat) (evs : List Ev)
    (hp : plotLoop axNum x y pt rng (List.range plotNum) none = (evs, .returnedEarly)) :
    plotBody axNum plotNum x y pt rng =
      ⟨Ev.figureCreated axNum 10 (5 * axNum) :: evs, .returned⟩ := by
  simp only [plotBody]
  rw [hp]

lemma completed_body (axNum plotNum : Nat) (x y : Arr2D) (pt : List String)
    (rng : Nat → Nat) (h : Ev.showFig ∈ (plotBody axNum plotNum x y pt rng).trace) :
    0 < plotNum ∧ (∀ i ∈ List.range plotNum, goodTag pt i) ∧
      plotBody axNum plotNum x y pt rng =
        ⟨Ev.figureCreated axNum 10 (5 * axNum) ::
          loopEvsG axNum x y pt rng (List.range plotNum) ++
            tailEvs axNum plotNum (axOf axNum (plotNum - 1)), .returned⟩ := by
  rcases hp : plotLoop axNum x y pt rng (List.range plotNum) none with ⟨evs, ex⟩
  have hOK : ∀ e ∈ evs, loopEvOK axNum e = true := by
    intro e he
    exact loopEvOK_plotLoop axNum x y pt rng _ none e (by rw [hp]; exact he)
  cases ex with
  | returnedEarly =>
    simp only [plotBody] at h
    rw [hp] at h
    rcases List.mem_cons.1 h with hfig | hin
    · exact absurd hfig (by simp)
    · have := hOK _ hin
      simp [loopEvOK] at this
  | crashedLoop e =>
    simp only [plotBody] at h
    rw [hp] at h
    rcases List.mem_cons.1 h with hfig | hin
    · exact absurd hfig (by simp)
    · have := hOK _ hin
      simp [loopEvOK] at this
  | finished r =>
    cases r with
    | none =>
      simp only [plotBody] at h
      rw [hp] at h
      rcases List.mem_cons.1 h with hfig | hin
      · exact absurd hfig (by simp)
      · have := hOK _ hin
        simp [loopEvOK] at this
    | some lastAx =>
      have hgood : ∀ i ∈ List.range plotNum, goodTag pt i :=
        finished_good axNum x y pt rng _ none (some lastAx) (by rw [hp])
      have hn : 0 < plotNum := by
        rcases Nat.eq_zero_or_pos plotNum with h0 | h0
        · subst h0
          simp [plotLoop, List.range_zero] at hp
        · exact h0
      exact ⟨hn, hgood, plotBody_good axNum plotNum x y pt rng hgood hn⟩

lemma axesCreated_plotBody (axNum plotNum : Nat) (x y : Arr2D) (pt : List String)
    (rng : Nat → Nat) : axesCreated (plotBody axNum plotNum x y pt rng).trace = axNum := by
  rcases hp : plotLoop axNum x y pt rng (List.range plotNum) none with ⟨evs, ex⟩
  have hOK : ∀ e ∈ evs, loopEvOK axNum e = true := by
    intro e he
    exact loopEvOK_plotLoop axNum x y pt rng _ none e (by rw [hp]; exact he)
  have hevs0 : axesCreated evs = 0 :=
    axesCreated_eq_zero evs (fun e he => loopEvOK_not_fig axNum e (hOK e he))
  cases ex with
  | returnedEarly =>
    simp only [plotBody]
    rw [hp]
    simp [axesCreated, hevs0]
  | crashedLoop e =>
    simp only [plotBody]
    rw [hp]
    simp [axesCreated, hevs0]
  | finished r =>
    cases r with
    | none =>
      simp only [plotBody]
      rw [hp]
      simp [axesCreated, hevs0]
    | some lastAx =>
      simp only [plotBody]
      rw [hp]
      dsimp only
      rw [axesCreated_append,
        show axesCreated (Ev.figureCreated axNum 10 (5 * axNum) :: evs) =
          axNum + axesCreated evs from rfl,
        hevs0, axesCreated_tailEvs]
      omega

/-! Substring lemmas for the diagnostic messages. -/

lemma charsPre_self_append (p r : List Char) : charsPre p (p ++ r) = true := by
  induction p with
  | nil => rfl
  | cons c cs ih => simp [charsPre, ih]

lemma charsSub_of_pre (p s : List Char) (h : charsPre p s = true) :
    charsSub p s = true := by
  cases s with
  | nil => simpa [charsSub] using h
  | cons c cs => simp [charsSub, h]

lemma charsSub_append_left (p : List Char) :
    ∀ (l s : List Char), charsSub p s = true → charsSub p (l ++ s) = true := by
  intro l
  induction l with
  | nil => intro s h; simpa using h
  | cons c cs ih =>
    intro s h
    rw [List.cons_append, charsSub, Bool.or_eq_true]
    exact Or.inr (ih s h)

lemma mentions_plotTypeMsg_label (i : Nat) (t : String) :
    Mentions (plotTypeMsg i t) (plotLabel i) := by
  unfold Mentions plotTypeMsg
  rw [String.data_append]
  exact charsSub_of_pre _ _ (charsPre_self_append _ _)

lemma mentions_plotTypeMsg_tag (i : Nat) (t : String) :
    Mentions (plotTypeMsg i t) t := by
  unfold Mentions plotTypeMsg
  rw [String.data_append, String.data_append, String.data_append]
  exact charsSub_append_left _ _ _
    (charsSub_append_left _ _ _ (charsSub_of_pre _ _ (charsPre_self_append _ _)))

/-! Per-subplot titles. -/

lemma titles_loopEvsG (axNum : Nat) (x y : Arr2D) (pt : List String) (rng : Nat → Nat)
    (hax : axNum ≠ 1) :
    ∀ (idxs : List Nat), ∀ i ∈ idxs,
    Ev.setTitleYlabel i (plotLabel i) ∈ loopEvsG axNum x y pt rng idxs := by
  intro idxs
  induction idxs with
  | nil => intro i hi; simp at hi
  | cons j rest ih =>
    intro i hi
    rw [loopEvsG]
    rcases List.mem_cons.1 hi with h1 | h1
    · rw [h1]
      refine List.mem_append.2 (Or.inl (List.mem_append.2 (Or.inl ?_)))
      rw [titleEvsOf, if_neg hax]
      simp
    · exact List.mem_append.2 (Or.inr (ih i h1))

lemma notin_loopEvsG (axNum : Nat) (x y : Arr2D) (pt : List String) (rng : Nat → Nat)
    (e : Ev) (h : loopEvOK axNum e = false) :
    ∀ idxs : List Nat, e ∉ loopEvsG axNum x y pt rng idxs := by
  intro idxs hmem
  have := loopEvOK_loopEvsG axNum x y pt rng idxs e hmem
  rw [h] at this
  exact Bool.noConfusion this

lemma plotLabel_inj_lt10 : ∀ i < 10, ∀ j < 10, i ≠ j → plotLabel i ≠ plotLabel j := by
  decide

lemma markerAt_inj_lt10 : ∀ i < 10, ∀ j < 10, i ≠ j → markerAt i ≠ markerAt j := by
  decide

/-! Branch lemmas for `plot_columns`. -/

lemma plot_columns_single (x y : Arr2D) (pt : List String) (rng : Nat → Nat) :
    plot_columns "single" x y pt rng = plotBody 1 x.cols x y pt rng := rfl

lemma plot_columns_subplots (x y : Arr2D) (pt : List String) (rng : Nat → Nat) :
    plot_columns "subplots" x y pt rng = plotBody x.cols x.cols x y pt rng := rfl

lemma plot_columns_invalid (ft : String) (x y : Arr2D) (pt : List String)
    (rng : Nat → Nat) (h1 : ft ≠ "single") (h2 : ft ≠ "subplots") :
    plot_columns ft x y pt rng = ⟨[Ev.printMsg figTypeMsg], Outcome.returned⟩ := by
  simp only [plot_columns, if_neg h1, if_neg h2]

/-! Claim theorems. -/

/-- C1: a call with fig_type "single" creates exactly one drawing surface
(axis) regardless of the number of columns, and a call with fig_type
"subplots" creates as many drawing surfaces as `x` has columns. -/
theorem claim_C1 (x y : Arr2D) (pt : List String) (rng : Nat → Nat) :
    axesCreated (plot_columns "single" x y pt rng).trace = 1 ∧
    axesCreated (plot_columns "subplots" x y pt rng).trace = x.cols := by
  constructor
  · rw [plot_columns_single]
    exact axesCreated_plotBody 1 x.cols x y pt rng
  · rw [plot_columns_subplots]
    exact axesCreated_plotBody x.cols x.cols x y pt rng

/-- C3, counterexample: for fig_type "triple" the function does print a
diagnostic and return early without a figure, but the diagnostic is the
fixed message `figTypeMsg`, which does not name the bad value "triple" —
refuting the claim that the diagnostic names the bad value. -/
theorem claim_C3_counterexample :
    (plot_columns "triple" (testArr 1 1) (testArr 1 1) ["line"] rng0).trace =
        [Ev.printMsg figTypeMsg] ∧
      (plot_columns "triple" (testArr 1 1) (testArr 1 1) ["line"] rng0).outcome =
        Outcome.returned ∧
      ¬ Mentions figTypeMsg "triple" := by
  refine ⟨rfl, rfl, ?_⟩
  decide

/-- C3, amended: for every fig_type outside {"single", "subplots"} the
function prints one fixed human-readable diagnostic (stating the accepted
values but not echoing the bad value), creates no drawing surface, displays
nothing, and returns normally. -/
theorem claim_C3_amended (ft : String) (x y : Arr2D) (pt : List String)
    (rng : Nat → Nat) (h1 : ft ≠ "single") (h2 : ft ≠ "subplots") :
    (plot_columns ft x y pt rng).trace = [Ev.printMsg figTypeMsg] ∧
      (plot_columns ft x y pt rng).outcome = Outcome.returned ∧
      axesCreated (plot_columns ft x y pt rng).trace = 0 ∧
      Ev.showFig ∉ (plot_columns ft x y pt rng).trace := by
  rw [plot_columns_invalid ft x y pt rng h1 h2]
  exact ⟨rfl, rfl, rfl, by simp⟩

theorem claim_C3_witness :
    (plot_columns "triple" (testArr 1 1) (testArr 1 1) ["line"] rng0).trace =
        [Ev.printMsg figTypeMsg] ∧
      (plot_columns "triple" (testArr 1 1) (testArr 1 1) ["line"] rng0).outcome =
        Outcome.returned ∧
      axesCreated (plot_columns "triple" (testArr 1 1) (testArr 1 1) ["line"]
        rng0).trace = 0 ∧
      Ev.showFig ∉ (plot_columns "triple" (testArr 1 1) (testArr 1 1) ["line"]
        rng0).trace :=
  claim_C3_amended "triple" (testArr 1 1) (testArr 1 1) ["line"] rng0
    (by decide) (by decide)

/-- C9: with a valid fig_type and zero-column tables, the loop body never
runs, so the post-loop read of `current_ax` raises an uncaught
`UnboundLocalError`; the call does not return normally. -/
theorem claim_C9 (ft : String) (x y : Arr2D) (pt : List String) (rng : Nat → Nat)
    (hft : ft = "single" ∨ ft = "subplots") (h0 : x.cols = 0) :
    (plot_columns ft x y pt rng).outcome = Outcome.crashed "UnboundLocalError" ∧
      (plot_columns ft x y pt rng).outcome ≠ Outcome.returned := by
  have hbody : ∀ axNum, (plotBody axNum 0 x y pt rng).outcome =
      Outcome.crashed "UnboundLocalError" := by
    intro axNum
    simp [plotBody, List.range_zero, plotLoop]
  rcases hft with h | h <;> subst h
  · rw [plot_columns_single, h0, hbody 1]
    exact ⟨rfl, by simp⟩
  · rw [plot_columns_subplots, h0, hbody 0]
    exact ⟨rfl, by simp⟩

theorem claim_C9_witness :
    (plot_columns "single" (testArr 0 0) (testArr 0 0) [] rng0).outcome =
        Outcome.crashed "UnboundLocalError" ∧
      (plot_columns "single" (testArr 0 0) (testArr 0 0) [] rng0).outcome ≠
        Outcome.returned :=
  claim_C9 "single" (testArr 0 0) (testArr 0 0) [] rng0 (Or.inl rfl) rfl

lemma plotLoop_congr (axNum : Nat) (x y : Arr2D) (pt1 pt2 : List String)
    (rng : Nat → Nat) :
    ∀ (idxs : List Nat), (∀ i ∈ idxs, pt1.get? i = pt2.get? i) → ∀ (cur : Option Nat),
    plotLoop axNum x y pt1 rng idxs cur = plotLoop axNum x y pt2 rng idxs cur := by
  intro idxs
  induction idxs with
  | nil => intro _ cur; rfl
  | cons i rest ih =>
    intro h cur
    have hi := h i (List.mem_cons_self _ _)
    have hrest : ∀ j ∈ rest, pt1.get? j = pt2.get? j :=
      fun j hj => h j (List.mem_cons_of_mem _ hj)
    rw [plotLoop, plotLoop, hi, ih hrest (some (axOf axNum i))]

/-- C10: `plot_columns` consults only the first column-count entries of
`plot_type`: two calls whose style lists agree on every index below the
column count (one list may be longer) produce the same result — same
columns drawn, same diagnostics, same outcome. -/
theorem claim_C10 (ft : String) (x y : Arr2D) (pt1 pt2 : List String)
    (rng : Nat → Nat) (h : ∀ i < x.cols, pt1.get? i = pt2.get? i) :
    plot_columns ft x y pt1 rng = plot_columns ft x y pt2 rng ∧
      drawnCols (plot_columns ft x y pt1 rng).trace =
        drawnCols (plot_columns ft x y pt2 rng).trace ∧
      diagnostics (plot_columns ft x y pt1 rng).trace =
        diagnostics (plot_columns ft x y pt2 rng).trace ∧
      (plot_columns ft x y pt1 rng).outcome = (plot_columns ft x y pt2 rng).outcome := by
  have hloop : ∀ (axNum : Nat) (cur : Option Nat),
      plotLoop axNum x y pt1 rng (List.range x.cols) cur =
        plotLoop axNum x y pt2 rng (List.range x.cols) cur :=
    fun axNum cur =>
      plotLoop_congr axNum x y pt1 pt2 rng _ (fun i hi => h i (List.mem_range.1 hi)) cur
  have heq : plot_columns ft x y pt1 rng = plot_columns ft x y pt2 rng := by
    by_cases h1 : ft = "single"
    · subst h1
      rw [plot_columns_single, plot_columns_single]
      simp only [plotBody, hloop]
    · by_cases h2 : ft = "subplots"
      · subst h2
        rw [plot_columns_subplots, plot_columns_subplots]
        simp only [plotBody, hloop]
      · rw [plot_columns_invalid ft x y pt1 rng h1 h2,
          plot_columns_invalid ft x y pt2 rng h1 h2]
  exact ⟨heq, by rw [heq], by rw [heq], by rw [heq]⟩

theorem claim_C10_witness :
    plot_columns "single" (testArr 1 1) (testArr 1 1) ["line"] rng0 =
        plot_columns "single" (testArr 1 1) (testArr 1 1) ["line", "bogus"] rng0 ∧
      drawnCols (plot_columns "single" (testArr 1 1) (testArr 1 1) ["line"]
          rng0).trace =
        drawnCols (plot_columns "single" (testArr 1 1) (testArr 1 1)
          ["line", "bogus"] rng0).trace ∧
      diagnostics (plot_columns "single" (testArr 1 1) (testArr 1 1) ["line"]
          rng0).trace =
        diagnostics (plot_columns "single" (testArr 1 1) (testArr 1 1)
          ["line", "bogus"] rng0).trace ∧
      (plot_columns "single" (testArr 1 1) (testArr 1 1) ["line"] rng0).outcome =
        (plot_columns "single" (testArr 1 1) (testArr 1 1) ["line", "bogus"]
          rng0).outcome :=
  claim_C10 "single" (testArr 1 1) (testArr 1 1) ["line"] ["line", "bogus"] rng0
    (by decide)

lemma trace_plotBody_cases (axNum plotNum : Nat) (x y : Arr2D) (pt : List String)
    (rng : Nat → Nat) (e : Ev) (he : e ∈ (plotBody axNum plotNum x y pt rng).trace) :
    e = Ev.figureCreated axNum 10 (5 * axNum) ∨ loopEvOK axNum e = true ∨
      ∃ lastAx, e ∈ tailEvs axNum plotNum lastAx := by
  rcases hp : plotLoop axNum x y pt rng (List.range plotNum) none with ⟨evs, ex⟩
  have hOK : ∀ a ∈ evs, loopEvOK axNum a = true := by
    intro a ha
    exact loopEvOK_plotLoop axNum x y pt rng _ none a (by rw [hp]; exact ha)
  cases ex with
  | returnedEarly =>
    simp only [plotBody] at he
    rw [hp] at he
    rcases List.mem_cons.1 he with h | h
    · exact Or.inl h
    · exact Or.inr (Or.inl (hOK _ h))
  | crashedLoop er =>
    simp only [plotBody] at he
    rw [hp] at he
    rcases List.mem_cons.1 he with h | h
    · exact Or.inl h
    · exact Or.inr (Or.inl (hOK _ h))
  | finished r =>
    cases r with
    | none =>
      simp only [plotBody] at he
      rw [hp] at he
      rcases List.mem_cons.1 he with h | h
      · exact Or.inl h
      · exact Or.inr (Or.inl (hOK _ h))
    | some lastAx =>
      simp only [plotBody] at he
      rw [hp] at he
      rcases List.mem_append.1 he with h | h
      · rcases List.mem_cons.1 h with h | h
        · exact Or.inl h
        · exact Or.inr (Or.inl (hOK _ h))
      · exact Or.inr (Or.inr ⟨lastAx, h⟩)

/-- C6: for one-column tables, a "subplots" call behaves identically to a
"single" call — the same result, one axis created, no margin adjustment, no
per-subplot titles (any title set is the overall one), and (when column 0
has an accepted style tag) the overall title with its y-axis label is set. -/
theorem claim_C6 (x y : Arr2D) (pt : List String) (rng : Nat → Nat)
    (h1 : x.cols = 1) :
    plot_columns "subplots" x y pt rng = plot_columns "single" x y pt rng ∧
      axesCreated (plot_columns "subplots" x y pt rng).trace = 1 ∧
      Ev.subplotsAdjust ∉ (plot_columns "subplots" x y pt rng).trace ∧
      (∀ a s, Ev.setTitleYlabel a s ∈ (plot_columns "subplots" x y pt rng).trace →
        s = "x vs. y, column-wise") ∧
      (goodTag pt 0 →
        Ev.setTitleYlabel 0 "x vs. y, column-wise" ∈
          (plot_columns "subplots" x y pt rng).trace) := by
  have e1 : plot_columns "subplots" x y pt rng = plotBody 1 1 x y pt rng := by
    rw [plot_columns_subplots, h1]
  have e2 : plot_columns "single" x y pt rng = plotBody 1 1 x y pt rng := by
    rw [plot_columns_single, h1]
  refine ⟨e1.trans e2.symm, ?_, ?_, ?_, ?_⟩
  · rw [e1]
    exact axesCreated_plotBody 1 1 x y pt rng
  · rw [e1]
    intro hmem
    rcases trace_plotBody_cases 1 1 x y pt rng _ hmem with h | h | ⟨a, h⟩
    · exact Ev.noConfusion h
    · simp [loopEvOK] at h
    · rw [subplotsAdjust_tailEvs] at h
      exact h rfl
  · rw [e1]
    intro a s hmem
    rcases trace_plotBody_cases 1 1 x y pt rng _ hmem with h | h | ⟨b, h⟩
    · exact Ev.noConfusion h
    · simp [loopEvOK] at h
    · exact ((setTitle_tailEvs 1 1 b a s).1 h).2.2
  · intro hg
    rw [e1, plotBody_good 1 1 x y pt rng
      (fun i hi => by
        have h0 : i = 0 := Nat.lt_one_iff.1 (List.mem_range.1 hi)
        rw [h0]
        exact hg)
      (by omega)]
    refine List.mem_append.2 (Or.inr ?_)
    exact (setTitle_tailEvs 1 1 (axOf 1 (1 - 1)) 0 _).2 ⟨rfl, rfl, rfl⟩

theorem claim_C6_witness :
    plot_columns "subplots" (testArr 1 1) (testArr 1 1) ["line"] rng0 =
        plot_columns "single" (testArr 1 1) (testArr 1 1) ["line"] rng0 ∧
      axesCreated (plot_columns "subplots" (testArr 1 1) (testArr 1 1) ["line"]
        rng0).trace = 1 ∧
      Ev.subplotsAdjust ∉ (plot_columns "subplots" (testArr 1 1) (testArr 1 1)
        ["line"] rng0).trace ∧
      (∀ a s, Ev.setTitleYlabel a s ∈ (plot_columns "subplots" (testArr 1 1)
          (testArr 1 1) ["line"] rng0).trace → s = "x vs. y, column-wise") ∧
      (goodTag ["line"] 0 →
        Ev.setTitleYlabel 0 "x vs. y, column-wise" ∈
          (plot_columns "subplots" (testArr 1 1) (testArr 1 1) ["line"]
            rng0).trace) :=
  claim_C6 (testArr 1 1) (testArr 1 1) ["line"] rng0 rfl

/-- C4: in a completed call, a legend is attached if and only if fig_type is
"single" and the column count exceeds 1. -/
theorem claim_C4 (ft : String) (x y : Arr2D) (pt : List String) (rng : Nat → Nat)
    (hc : Completed (plot_columns ft x y pt rng)) :
    (∃ a, Ev.legend a ∈ (plot_columns ft x y pt rng).trace) ↔
      ft = "single" ∧ 1 < x.cols := by
  by_cases h1 : ft = "single"
  · subst h1
    rw [plot_columns_single] at hc ⊢
    obtain ⟨hn, hgood, hbody⟩ := completed_body 1 x.cols x y pt rng hc
    rw [hbody]
    constructor
    · rintro ⟨a, ha⟩
      refine ⟨rfl, ?_⟩
      rcases List.mem_append.1 ha with h | h
      · rcases List.mem_cons.1 h with h | h
        · exact Ev.noConfusion h
        · exact absurd h (notin_loopEvsG 1 x y pt rng (Ev.legend a) rfl _)
      · exact ((legend_tailEvs 1 x.cols _ a).1 h).2.1
    · rintro ⟨-, hcols⟩
      exact ⟨axOf 1 (x.cols - 1),
        List.mem_append.2 (Or.inr ((legend_tailEvs 1 x.cols _ _).2 ⟨rfl, hcols, rfl⟩))⟩
  · by_cases h2 : ft = "subplots"
    · subst h2
      rw [plot_columns_subplots] at hc ⊢
      obtain ⟨hn, hgood, hbody⟩ := completed_body x.cols x.cols x y pt rng hc
      rw [hbody]
      constructor
      · rintro ⟨a, ha⟩
        exfalso
        rcases List.mem_append.1 ha with h | h
        · rcases List.mem_cons.1 h with h | h
          · exact Ev.noConfusion h
          · have := loopEvOK_loopEvsG x.cols x y pt rng _ _ h
            simp [loopEvOK] at this
        · obtain ⟨hA, hB, -⟩ := (legend_tailEvs x.cols x.cols _ a).1 h
          omega
      · rintro ⟨hbad, -⟩
        exact absurd hbad (by decide)
    · rw [plot_columns_invalid ft x y pt rng h1 h2] at hc
      exact absurd hc (by simp [Completed])

theorem claim_C4_witness :
    (∃ a, Ev.legend a ∈ (plot_columns "single" (testArr 1 2) (testArr 1 2)
        ["line", "line"] rng0).trace) ↔
      "single" = "single" ∧ 1 < (testArr 1 2).cols :=
  claim_C4 "single" (testArr 1 2) (testArr 1 2) ["line", "line"] rng0 (by decide)

/-- C7: in a completed "subplots" call with more than one column (within the
documented 10-column cap), every drawing surface `i` carries its own title
`plotLabel i` with a y-axis label, these titles are pairwise distinct, and
an x-axis label is placed exactly on the bottom (last) surface. -/
theorem claim_C7 (x y : Arr2D) (pt : List String) (rng : Nat → Nat)
    (hc : Completed (plot_columns "subplots" x y pt rng))
    (hgt : 1 < x.cols) (hcap : x.cols ≤ 10) :
    (∀ i < x.cols, Ev.setTitleYlabel i (plotLabel i) ∈
        (plot_columns "subplots" x y pt rng).trace) ∧
      (∀ i < x.cols, ∀ j < x.cols, i ≠ j → plotLabel i ≠ plotLabel j) ∧
      (∀ a, Ev.setXlabel a ∈ (plot_columns "subplots" x y pt rng).trace ↔
        a = x.cols - 1) := by
  have hax : x.cols ≠ 1 := by omega
  rw [plot_columns_subplots] at hc ⊢
  obtain ⟨hn, hgood, hbody⟩ := completed_body x.cols x.cols x y pt rng hc
  rw [hbody]
  refine ⟨?_, ?_, ?_⟩
  · intro i hi
    refine List.mem_append.2 (Or.inl (List.mem_cons.2 (Or.inr ?_)))
    exact titles_loopEvsG x.cols x y pt rng hax _ i (List.mem_range.2 hi)
  · intro i hi j hj hne
    exact plotLabel_inj_lt10 i (by omega) j (by omega) hne
  · intro a
    constructor
    · intro ha
      rcases List.mem_append.1 ha with h | h
      · rcases List.mem_cons.1 h with h | h
        · exact Ev.noConfusion h
        · exact absurd h (notin_loopEvsG x.cols x y pt rng (Ev.setXlabel a) rfl _)
      · have hx := (setXlabel_tailEvs x.cols x.cols _ a).1 h
        rw [hx]
        simp only [axOf, if_neg hax]
    · intro ha
      refine List.mem_append.2 (Or.inr ((setXlabel_tailEvs _ _ _ _).2 ?_))
      rw [ha]
      simp only [axOf, if_neg hax]

theorem claim_C7_witness :
    (∀ i < (testArr 1 3).cols, Ev.setTitleYlabel i (plotLabel i) ∈
        (plot_columns "subplots" (testArr 1 3) (testArr 1 3)
          ["line", "scatter", "line"] rng0).trace) ∧
      (∀ i < (testArr 1 3).cols, ∀ j < (testArr 1 3).cols, i ≠ j →
        plotLabel i ≠ plotLabel j) ∧
      (∀ a, Ev.setXlabel a ∈ (plot_columns "subplots" (testArr 1 3) (testArr 1 3)
          ["line", "scatter", "line"] rng0).trace ↔ a = (testArr 1 3).cols - 1) :=
  claim_C7 (testArr 1 3) (testArr 1 3) ["line", "scatter", "line"] rng0
    (by decide) (by decide) (by decide)

lemma drawnCols_cons_fig (n w h : Nat) (l : List Ev) :
    drawnCols (Ev.figureCreated n w h :: l) = drawnCols l := rfl

lemma diagnostics_cons_fig (n w h : Nat) (l : List Ev) :
    diagnostics (Ev.figureCreated n w h :: l) = diagnostics l := rfl

lemma range_decomp (i n : Nat) (h : i < n) :
    List.range n =
      List.range i ++ i :: (List.range (n - i - 1)).map (fun k => i + 1 + k) := by
  have h3 : n = (i + 1) + (n - i - 1) := by omega
  calc List.range n = List.range ((i + 1) + (n - i - 1)) := by rw [← h3]
    _ = List.range (i + 1) ++ (List.range (n - i - 1)).map (fun k => (i + 1) + k) :=
        List.range_add _ _
    _ = (List.range i ++ [i]) ++ (List.range (n - i - 1)).map (fun k => i + 1 + k) := by
        rw [List.range_succ]
    _ = List.range i ++ i :: (List.range (n - i - 1)).map (fun k => i + 1 + k) := by
        simp

/-- C2: if column `i` carries the first style tag outside {"line", "scatter"}
(within the documented 10-column cap), the call draws exactly the columns
below `i`, prints one diagnostic naming column `i` and the offending tag,
ends the trace at that diagnostic (no figure shown, no later column touched),
and returns normally. -/
theorem claim_C2 (ft : String) (x y : Arr2D) (pt : List String) (rng : Nat → Nat)
    (i : Nat) (t : String)
    (hft : ft = "single" ∨ ft = "subplots") (hcap : x.cols ≤ 10) (hi : i < x.cols)
    (ht : pt.get? i = some t) (h1 : t ≠ "line") (h2 : t ≠ "scatter")
    (hfirst : ∀ j < i, pt.get? j = some "line" ∨ pt.get? j = some "scatter") :
    drawnCols (plot_columns ft x y pt rng).trace = List.range i ∧
      diagnostics (plot_columns ft x y pt rng).trace = [plotTypeMsg i t] ∧
      Mentions (plotTypeMsg i t) (plotLabel i) ∧
      Mentions (plotTypeMsg i t) t ∧
      (plot_columns ft x y pt rng).trace.getLast? =
        some (Ev.printMsg (plotTypeMsg i t)) ∧
      Ev.showFig ∉ (plot_columns ft x y pt rng).trace ∧
      (plot_columns ft x y pt rng).outcome = Outcome.returned := by
  have hgoodr : ∀ j ∈ List.range i, goodTag pt j := by
    intro j hj
    have hji : j < i := List.mem_range.1 hj
    rcases hfirst j hji with h | h
    · exact Or.inl h
    · exact Or.inr ⟨h, by omega⟩
  have key : ∀ axNum, plotBody axNum x.cols x y pt rng =
      ⟨Ev.figureCreated axNum 10 (5 * axNum) ::
        (loopEvsG axNum x y pt rng (List.range i) ++
          (titleEvsOf axNum i ++ [Ev.printMsg (plotTypeMsg i t)])), Outcome.returned⟩ := by
    intro axNum
    have hp : plotLoop axNum x y pt rng (List.range x.cols) none =
        (loopEvsG axNum x y pt rng (List.range i) ++
          (titleEvsOf axNum i ++ [Ev.printMsg (plotTypeMsg i t)]), .returnedEarly) := by
      rw [range_decomp i x.cols hi]
      exact plotLoop_firstBad axNum x y pt rng i t ht h1 h2 (List.range i) _ hgoodr none
    exact plotBody_early axNum x.cols x y pt rng _ hp
  have final : ∀ axNum,
      drawnCols (plotBody axNum x.cols x y pt rng).trace = List.range i ∧
      diagnostics (plotBody axNum x.cols x y pt rng).trace = [plotTypeMsg i t] ∧
      (plotBody axNum x.cols x y pt rng).trace.getLast? =
        some (Ev.printMsg (plotTypeMsg i t)) ∧
      Ev.showFig ∉ (plotBody axNum x.cols x y pt rng).trace ∧
      (plotBody axNum x.cols x y pt rng).outcome = Outcome.returned := by
    intro axNum
    rw [key axNum]
    refine ⟨?_, ?_, ?_, ?_, rfl⟩
    · rw [drawnCols_cons_fig, drawnCols_append, drawnCols_loopEvsG, drawnCols_append,
        drawnCols_titleEvsOf]
      simp [drawnCols]
    · rw [diagnostics_cons_fig, diagnostics_append, diagnostics_loopEvsG,
        diagnostics_append, diagnostics_titleEvsOf]
      simp [diagnostics]
    · have hsh : Ev.figureCreated axNum 10 (5 * axNum) ::
          (loopEvsG axNum x y pt rng (List.range i) ++
            (titleEvsOf axNum i ++ [Ev.printMsg (plotTypeMsg i t)])) =
          (Ev.figureCreated axNum 10 (5 * axNum) ::
            (loopEvsG axNum x y pt rng (List.range i) ++ titleEvsOf axNum i)) ++
            [Ev.printMsg (plotTypeMsg i t)] := by
        simp
      rw [hsh, List.getLast?_concat]
    · intro hmem
      rcases List.mem_cons.1 hmem with h | h
      · exact Ev.noConfusion h
      rcases List.mem_append.1 h with h | h
      · exact notin_loopEvsG axNum x y pt rng Ev.showFig rfl _ h
      rcases List.mem_append.1 h with h | h
      · have := loopEvOK_titleEvsOf axNum i _ h
        simp [loopEvOK] at this
      · simp at h
  rcases hft with h | h
  · subst h
    rw [plot_columns_single]
    obtain ⟨d1, d2, d3, d4, d5⟩ := final 1
    exact ⟨d1, d2, mentions_plotTypeMsg_label i t, mentions_plotTypeMsg_tag i t,
      d3, d4, d5⟩
  · subst h
    rw [plot_columns_subplots]
    obtain ⟨d1, d2, d3, d4, d5⟩ := final x.cols
    exact ⟨d1, d2, mentions_plotTypeMsg_label i t, mentions_plotTypeMsg_tag i t,
      d3, d4, d5⟩

theorem claim_C2_witness :
    drawnCols (plot_columns "single" (testArr 1 3) (testArr 1 3)
        ["line", "scatter", "triangle"] rng0).trace = List.range 2 ∧
      diagnostics (plot_columns "single" (testArr 1 3) (testArr 1 3)
        ["line", "scatter", "triangle"] rng0).trace = [plotTypeMsg 2 "triangle"] ∧
      Mentions (plotTypeMsg 2 "triangle") (plotLabel 2) ∧
      Mentions (plotTypeMsg 2 "triangle") "triangle" ∧
      (plot_columns "single" (testArr 1 3) (testArr 1 3)
        ["line", "scatter", "triangle"] rng0).trace.getLast? =
        some (Ev.printMsg (plotTypeMsg 2 "triangle")) ∧
      Ev.showFig ∉ (plot_columns "single" (testArr 1 3) (testArr 1 3)
        ["line", "scatter", "triangle"] rng0).trace ∧
      (plot_columns "single" (testArr 1 3) (testArr 1 3)
        ["line", "scatter", "triangle"] rng0).outcome = Outcome.returned :=
  claim_C2 "single" (testArr 1 3) (testArr 1 3) ["line", "scatter", "triangle"]
    rng0 2 "triangle" (Or.inl rfl) (by decide) (by decide) rfl (by decide)
    (by decide) (by decide)

lemma scatter_notin_titleEvsOf (axNum i a j : Nat) (xs ys : List Int) (lab : String)
    (c : Nat) (m : String) :
    Ev.scatterPlot a j xs ys lab c m ∉ titleEvsOf axNum i := by
  unfold titleEvsOf
  split <;> simp

lemma scatter_notin_tailEvs (axNum plotNum lastAx a j : Nat) (xs ys : List Int)
    (lab : String) (c : Nat) (m : String) :
    Ev.scatterPlot a j xs ys lab c m ∉ tailEvs axNum plotNum lastAx := by
  unfold tailEvs
  split <;> [skip; simp]
  split <;> simp

lemma scatter_marker_loop (axNum : Nat) (x y : Arr2D) (pt : List String)
    (rng : Nat → Nat) :
    ∀ (idxs : List Nat) (cur : Option Nat) (a j : Nat) (xs ys : List Int)
      (lab : String) (c : Nat) (m : String),
    Ev.scatterPlot a j xs ys lab c m ∈ (plotLoop axNum x y pt rng idxs cur).1 →
    markers.get? j = some m := by
  intro idxs
  induction idxs with
  | nil => intro cur a j xs ys lab c m hm; simp [plotLoop] at hm
  | cons i rest ih =>
    intro cur a j xs ys lab c m hm
    rw [plotLoop] at hm
    rcases hg : pt.get? i with _ | t
    · rw [hg] at hm
      exact absurd hm (scatter_notin_titleEvsOf axNum i a j xs ys lab c m)
    · rw [hg] at hm
      dsimp only at hm
      by_cases hl : t = "line"
      · rw [if_pos hl] at hm
        simp only [List.append_assoc, List.mem_append, List.mem_singleton] at hm
        rcases hm with h | h | h
        · exact absurd h (scatter_notin_titleEvsOf axNum i a j xs ys lab c m)
        · exact absurd h (by simp)
        · exact ih _ a j xs ys lab c m h
      · rw [if_neg hl] at hm
        by_cases hs : t = "scatter"
        · rw [if_pos hs] at hm
          rcases hmk : markers.get? i with _ | mk
          · rw [hmk] at hm
            exact absurd hm (scatter_notin_titleEvsOf axNum i a j xs ys lab c m)
          · rw [hmk] at hm
            simp only [List.append_assoc, List.mem_append, List.mem_singleton] at hm
            rcases hm with h | h | h
            · exact absurd h (scatter_notin_titleEvsOf axNum i a j xs ys lab c m)
            · injection h with ha hj hxs hys hlab hc hmm
              rw [hj, hmm]
              exact hmk
            · exact ih _ a j xs ys lab c m h
        · rw [if_neg hs] at hm
          simp only [List.mem_append, List.mem_singleton] at hm
          rcases hm with h | h
          · exact absurd h (scatter_notin_titleEvsOf axNum i a j xs ys lab c m)
          · exact absurd h (by simp)

lemma scatter_marker_body (axNum plotNum : Nat) (x y : Arr2D) (pt : List String)
    (rng : Nat → Nat) (a j : Nat) (xs ys : List Int) (lab : String) (c : Nat)
    (m : String)
    (h : Ev.scatterPlot a j xs ys lab c m ∈ (plotBody axNum plotNum x y pt rng).trace) :
    markers.get? j = some m := by
  rcases hp : plotLoop axNum x y pt rng (List.range plotNum) none with ⟨evs, ex⟩
  have hloop : Ev.scatterPlot a j xs ys lab c m ∈ evs → markers.get? j = some m :=
    fun hmem =>
      scatter_marker_loop axNum x y pt rng _ none a j xs ys lab c m
        (by rw [hp]; exact hmem)
  cases ex with
  | returnedEarly =>
    simp only [plotBody] at h
    rw [hp] at h
    rcases List.mem_cons.1 h with h | h
    · exact Ev.noConfusion h
    · exact hloop h
  | crashedLoop er =>
    simp only [plotBody] at h
    rw [hp] at h
    rcases List.mem_cons.1 h with h | h
    · exact Ev.noConfusion h
    · exact hloop h
  | finished r =>
    cases r with
    | none =>
      simp only [plotBody] at h
      rw [hp] at h
      rcases List.mem_cons.1 h with h | h
      · exact Ev.noConfusion h
      · exact hloop h
    | some lastAx =>
      simp only [plotBody] at h
      rw [hp] at h
      rcases List.mem_append.1 h with h | h
      · rcases List.mem_cons.1 h with h | h
        · exact Ev.noConfusion h
        · exact hloop h
      · exact absurd h (scatter_notin_tailEvs axNum plotNum lastAx a j xs ys lab c m)

lemma scatter_marker_run (ft : String) (x y : Arr2D) (pt : List String)
    (rng : Nat → Nat) (a j : Nat) (xs ys : List Int) (lab : String) (c : Nat)
    (m : String)
    (h : Ev.scatterPlot a j xs ys lab c m ∈ (plot_columns ft x y pt rng).trace) :
    markers.get? j = some m := by
  by_cases h1 : ft = "single"
  · subst h1
    rw [plot_columns_single] at h
    exact scatter_marker_body 1 x.cols x y pt rng a j xs ys lab c m h
  · by_cases h2 : ft = "subplots"
    · subst h2
      rw [plot_columns_subplots] at h
      exact scatter_marker_body x.cols x.cols x y pt rng a j xs ys lab c m h
    · rw [plot_columns_invalid ft x y pt rng h1 h2] at h
      simp at h

lemma marker_bound (i : Nat) (m : String) (hm : markers.get? i = some m) :
    i < 10 ∧ m = markerAt i := by
  have hm' : markers[i]? = some m := by simpa using hm
  have hlt : i < markers.length := by
    by_contra hge
    rw [List.getElem?_eq_none (by omega)] at hm'
    exact Option.noConfusion hm'
  have hlt10 : i < 10 := by simpa [markers] using hlt
  have hmk := markers_get_lt i hlt10
  rw [hm] at hmk
  exact ⟨hlt10, Option.some.inj hmk⟩

/-- C5: every scatter trace drawn for column `i` carries the marker at
palette index `i` (so in particular `i < 10`), and scatter traces of
distinct columns carry distinct marker shapes. -/
theorem claim_C5 (ft : String) (x y : Arr2D) (pt : List String) (rng : Nat → Nat)
    (a i : Nat) (xs ys : List Int) (lab : String) (c : Nat) (m : String)
    (hmem : Ev.scatterPlot a i xs ys lab c m ∈ (plot_columns ft x y pt rng).trace) :
    markers.get? i = some m ∧ i < 10 ∧ m = markerAt i ∧
      (∀ (a2 j : Nat) (xs2 ys2 : List Int) (lab2 : String) (c2 : Nat) (m2 : String),
        Ev.scatterPlot a2 j xs2 ys2 lab2 c2 m2 ∈ (plot_columns ft x y pt rng).trace →
        i ≠ j → m ≠ m2) := by
  have hm := scatter_marker_run ft x y pt rng a i xs ys lab c m hmem
  obtain ⟨hilt, hmark⟩ := marker_bound i m hm
  refine ⟨hm, hilt, hmark, ?_⟩
  intro a2 j xs2 ys2 lab2 c2 m2 hmem2 hij
  have hm2 := scatter_marker_run ft x y pt rng a2 j xs2 ys2 lab2 c2 m2 hmem2
  obtain ⟨hjlt, hmark2⟩ := marker_bound j m2 hm2
  rw [hmark, hmark2]
  exact markerAt_inj_lt10 i hilt j hjlt hij

theorem claim_C5_witness :
    markers.get? 0 = some "." ∧ 0 < 10 ∧ "." = markerAt 0 ∧
      (∀ (a2 j : Nat) (xs2 ys2 : List Int) (lab2 : String) (c2 : Nat) (m2 : String),
        Ev.scatterPlot a2 j xs2 ys2 lab2 c2 m2 ∈
          (plot_columns "single" (testArr 1 2) (testArr 1 2)
            ["scatter", "scatter"] rng0).trace →
        0 ≠ j → "." ≠ m2) :=
  claim_C5 "single" (testArr 1 2) (testArr 1 2) ["scatter", "scatter"] rng0
    0 0 [0] [0] "Plot 0" 0 "." (by decide)

/-- C8, counterexample: an 11-column all-"line" call in "single" mode is not
detected as violating the 10-column cap — it prints no diagnostic, draws all
11 columns, shows the figure and returns normally, refuting the claim that
the cap is a checked input condition handled by a diagnostic and early
return. -/
theorem claim_C8_counterexample :
    10 < (testArr 1 11).cols ∧
      (plot_columns "single" (testArr 1 11) (testArr 1 11)
        (List.replicate 11 "line") rng0).outcome = Outcome.returned ∧
      Ev.showFig ∈ (plot_columns "single" (testArr 1 11) (testArr 1 11)
        (List.replicate 11 "line") rng0).trace ∧
      diagnostics (plot_columns "single" (testArr 1 11) (testArr 1 11)
        (List.replicate 11 "line") rng0).trace = [] ∧
      drawnCols (plot_columns "single" (testArr 1 11) (testArr 1 11)
        (List.replicate 11 "line") rng0).trace = List.range 11 := by
  refine ⟨by decide, ?_, ?_, ?_, ?_⟩ <;> decide

/-- C8, amended: the 10-column cap is a documented precondition, not a
checked condition: a call with more than 10 columns and a valid fig_type
whose style tags are all "line" is not detected — it prints no diagnostic,
draws every column, and completes normally. -/
theorem claim_C8_amended (ft : String) (x y : Arr2D) (pt : List String)
    (rng : Nat → Nat) (hft : ft = "single" ∨ ft = "subplots")
    (hcols : 10 < x.cols) (hall : ∀ j < x.cols, pt.get? j = some "line") :
    Completed (plot_columns ft x y pt rng) ∧
      (plot_columns ft x y pt rng).outcome = Outcome.returned ∧
      diagnostics (plot_columns ft x y pt rng).trace = [] ∧
      drawnCols (plot_columns ft x y pt rng).trace = List.range x.cols := by
  have hg : ∀ i ∈ List.range x.cols, goodTag pt i :=
    fun i hi => Or.inl (hall i (List.mem_range.1 hi))
  have final : ∀ axNum,
      Completed (plotBody axNum x.cols x y pt rng) ∧
      (plotBody axNum x.cols x y pt rng).outcome = Outcome.returned ∧
      diagnostics (plotBody axNum x.cols x y pt rng).trace = [] ∧
      drawnCols (plotBody axNum x.cols x y pt rng).trace = List.range x.cols := by
    intro axNum
    rw [plotBody_good axNum x.cols x y pt rng hg (by omega)]
    refine ⟨?_, rfl, ?_, ?_⟩
    · unfold Completed
      exact List.mem_append.2 (Or.inr (showFig_tailEvs _ _ _))
    · rw [show (RunResult.mk
          (Ev.figureCreated axNum 10 (5 * axNum) ::
            loopEvsG axNum x y pt rng (List.range x.cols) ++
              tailEvs axNum x.cols (axOf axNum (x.cols - 1))) Outcome.returned).trace =
          (Ev.figureCreated axNum 10 (5 * axNum) ::
            loopEvsG axNum x y pt rng (List.range x.cols)) ++
              tailEvs axNum x.cols (axOf axNum (x.cols - 1)) from rfl,
        diagnostics_append, diagnostics_cons_fig, diagnostics_loopEvsG,
        diagnostics_tailEvs]
      rfl
    · rw [show (RunResult.mk
          (Ev.figureCreated axNum 10 (5 * axNum) ::
            loopEvsG axNum x y pt rng (List.range x.cols) ++
              tailEvs axNum x.cols (axOf axNum (x.cols - 1))) Outcome.returned).trace =
          (Ev.figureCreated axNum 10 (5 * axNum) ::
            loopEvsG axNum x y pt rng (List.range x.cols)) ++
              tailEvs axNum x.cols (axOf axNum (x.cols - 1)) from rfl,
        drawnCols_append, drawnCols_cons_fig, drawnCols_loopEvsG, drawnCols_tailEvs]
      simp
  rcases hft with h | h
  · subst h
    rw [plot_columns_single]
    exact final 1
  · subst h
    rw [plot_columns_subplots]
    exact final x.cols

theorem claim_C8_witness :
    Completed (plot_columns "single" (testArr 1 11) (testArr 1 11)
        (List.replicate 11 "line") rng0) ∧
      (plot_columns "single" (testArr 1 11) (testArr 1 11)
        (List.replicate 11 "line") rng0).outcome = Outcome.returned ∧
      diagnostics (plot_columns "single" (testArr 1 11) (testArr 1 11)
        (List.replicate 11 "line") rng0).trace = [] ∧
      drawnCols (plot_columns "single" (testArr 1 11) (testArr 1 11)
        (List.replicate 11 "line") rng0).trace = List.range (testArr 1 11).cols :=
  claim_C8_amended "single" (testArr 1 11) (testArr 1 11)
    (List.replicate 11 "line") rng0 (Or.inl rfl) (by decide) (by decide)
